import Mathlib

/-!
Verification of the attendance admission logic of the `absensi` repository.

The repository contains three route handlers that implement (inconsistent
copies of) the attendance admission decision:

* `src/app/api/face/recognition/route.ts` — face-recognition check-in
  (`Recognition.POST` below, with the scorer `calculateFaceConfidence`);
* `src/app/api/attendance/route.ts` — plain check-in with the haversine
  location validator (`Attendance.POST`, `Attendance.validateLocation`,
  `Attendance.calculateDistance`);
* `src/unnamed/part_006` — a duplicated face-recognition handler
  (`Part006.calculateDistance`, `Part006.verifyLocation`,
  `Part006.calculateGPSDistance`).

The database is modelled as explicit lists (`DB`), JavaScript numbers as
real numbers, `Date` values as a `Now` record carrying the calendar day,
the weekday, the minutes-of-day and an absolute instant in minutes, and
each Prisma query as a pure function over `DB`.  Error responses are named
after the spec's error taxonomy: the handler messages map to the
constructors of `AdmissionError` (e.g. the message
"You are not enrolled in this class" is `NotEnrolled`, "Check-in is not
available at this time" is `OutsideCheckInWindow`, and the WiFi / GPS
rejections are `LocationRejected` with the handler's reason string).
-/

namespace Absensi

/-- Attendance status stored on an `AttendanceRecord`. -/
inductive Status
  | PRESENT
  | LATE
  | ABSENT
deriving DecidableEq, BEq

/-- Enrollment status linking a user to a class. -/
inductive EnrollmentStatus
  | ACTIVE
  | INACTIVE
deriving DecidableEq, BEq

/-- The spec's error taxonomy for the admission decision (section 7). -/
inductive AdmissionError
  | FaceProfileMissing
  | ClassNotFound
  | NotEnrolled
  | NotScheduledToday
  | OutsideCheckInWindow
  | FaceMismatch
  | DuplicateCheckIn
  | LocationRejected (reason : String)
deriving DecidableEq, BEq

/-- A user's enrolled face profile (`prisma.faceProfile`). -/
structure FaceProfile where
  userId : String
  faceDescriptors : List ℝ
  confidenceThreshold : ℝ

/-- Weekly schedule of a class as read by the recognition route:
`schedule.dayOfWeek`, and `startTime` / `endTime` strings "HH:MM"
represented by their hour and minute components. -/
structure Schedule where
  dayOfWeek : ℤ
  startHour : ℤ
  startMin : ℤ
  endHour : ℤ
  endMin : ℤ

/-- `startTime` of the recognition route, in minutes of the day. -/
def schedStartMinutes (s : Schedule) : ℤ := s.startHour * 60 + s.startMin

/-- `endTime` of the recognition route, in minutes of the day. -/
def schedEndMinutes (s : Schedule) : ℤ := s.endHour * 60 + s.endMin

/-- The class record as read by the recognition route
(`prisma.class.findUnique` with `location` and filtered `enrollments`):
its location carries a single `wifiSsid`. -/
structure ClassInfo where
  id : String
  wifiSsid : String
  schedule : Schedule

/-- A room as read by the attendance route and the duplicated handler:
nullable allowed-SSID list, nullable GPS center and nullable radius. -/
structure Room where
  allowedWifiSSIDs : Option (List String)
  latitude : Option ℝ
  longitude : Option ℝ
  radius : Option ℝ

/-- The class record as read by the attendance route and the duplicated
handler (`prisma.class` with `room`, `startTime` an absolute instant,
modelled in minutes). -/
structure ClassSession where
  id : String
  room : Option Room
  startTime : ℤ

/-- An enrollment row. -/
structure Enrollment where
  userId : String
  classId : String
  status : EnrollmentStatus

/-- An attendance record; `day` is the calendar day of its
timestamp / `createdAt` (the `[today, tomorrow)` bucket used by the
duplicate queries). -/
structure AttendanceRec where
  userId : String
  classId : String
  day : ℤ
  status : Status
  confidenceScore : Option ℝ
  wifiSsid : Option String
  gpsLat : Option ℝ
  gpsLng : Option ℝ

/-- A `faceQualityLog` row (recognition route). -/
structure QualityLog where
  userId : String
  confidence : ℝ
  success : Bool

/-- The backing store. -/
structure DB where
  faceProfiles : List FaceProfile
  classInfos : List ClassInfo
  classSessions : List ClassSession
  enrollments : List Enrollment
  attendances : List AttendanceRec
  faceQualityLogs : List QualityLog

/-- The current `Date`, split into the fields the handlers read:
calendar day, `getDay()` weekday, minutes of the day, absolute instant
in minutes. -/
structure Now where
  day : ℤ
  weekday : ℤ
  minutes : ℤ
  instant : ℤ

/-- Claimed GPS coordinates object of the attendance route. -/
structure Coordinates where
  latitude : ℝ
  longitude : ℝ

/-- Request body of the recognition handlers. -/
structure RecRequest where
  faceDescriptors : List ℝ
  classId : String
  wifiSsid : Option String
  gpsLat : Option ℝ
  gpsLng : Option ℝ

/-- Request body of the attendance route. -/
structure AttRequest where
  classId : String
  coordinates : Option Coordinates
  wifiSSID : Option String

/-- Result shape of both location validators. -/
structure LocationCheck where
  valid : Bool
  reason : Option String
deriving DecidableEq, BEq

/-- `prisma.faceProfile.findFirst({ where: { userId } })`. -/
def findFaceProfile (db : DB) (u : String) : Option FaceProfile :=
  db.faceProfiles.find? (fun p => p.userId == u)

/-- `prisma.class.findUnique` for the recognition route. -/
def findClassInfo (db : DB) (c : String) : Option ClassInfo :=
  db.classInfos.find? (fun k => k.id == c)

/-- `prisma.class.findUnique` for the attendance route / duplicated handler. -/
def findClassSession (db : DB) (c : String) : Option ClassSession :=
  db.classSessions.find? (fun k => k.id == c)

/-- Enrollments of the user in the class with status ACTIVE
(the recognition route's filtered `enrollments` include). -/
def activeEnrollments (db : DB) (u c : String) : List Enrollment :=
  db.enrollments.filter
    (fun e => e.userId == u && e.classId == c && e.status == EnrollmentStatus.ACTIVE)

/-- Enrollments of the user in the class with any status
(the attendance route's include has no status filter). -/
def anyEnrollments (db : DB) (u c : String) : List Enrollment :=
  db.enrollments.filter (fun e => e.userId == u && e.classId == c)

/-- `prisma.attendance.findFirst` for (user, class, today): true iff a
record of the triple exists. -/
def dupAttendanceExists (atts : List AttendanceRec) (u c : String) (day : ℤ) : Bool :=
  atts.any (fun a => a.userId == u && a.classId == c && a.day == day)

/-- `prisma.attendance.create`. -/
def addAttendance (db : DB) (a : AttendanceRec) : DB :=
  { db with attendances := a :: db.attendances }

/-- The data-model invariant of the spec: at most one attendance record
per (user, class, calendar day). -/
def AtMostOnePerTriple (atts : List AttendanceRec) : Prop :=
  ∀ u c d,
    (atts.filter (fun a => a.userId == u && a.classId == c && a.day == d)).length ≤ 1

/-- JavaScript's `Math.round`: round half towards positive infinity. -/
noncomputable def jsRound (x : ℝ) : ℤ := ⌊x + 1 / 2⌋

/-- JavaScript's `Math.atan2`. -/
noncomputable def jsAtan2 (y x : ℝ) : ℝ :=
  if 0 < x then Real.arctan (y / x)
  else if x < 0 then
    (if 0 ≤ y then Real.arctan (y / x) + Real.pi else Real.arctan (y / x) - Real.pi)
  else if 0 < y then Real.pi / 2
  else if y < 0 then -(Real.pi / 2)
  else 0

/-- The descriptor loop shared by both scorers:
`for i < stored.length: diff := stored[i] - current[i]; sum += diff * diff`. -/
noncomputable def sumSquares (stored current : List ℝ) : ℝ :=
  ∑ i ∈ Finset.range stored.length, (stored.getD i 0 - current.getD i 0) ^ 2

/-- JavaScript truthiness of an optional string (empty string is falsy). -/
def wifiTruthy : Option String → Bool
  | some s => s != ""
  | none => false

/-- JavaScript `room.radius || 50`: the default radius is used when the
stored radius is null, and also when it is 0 (0 is falsy). -/
noncomputable def defaultRadius (r : Option ℝ) : ℝ :=
  match r with
  | some x => if x = 0 then 50 else x
  | none => 50

namespace Recognition

/-- `const maxDistance = 1.0` in `calculateFaceConfidence`. -/
noncomputable def maxDistance : ℝ := 1

/-- `calculateFaceConfidence` of `src/app/api/face/recognition/route.ts`:
returns 0 on a length mismatch or empty input, otherwise the rounded
normalized confidence. -/
noncomputable def calculateFaceConfidence (stored current : List ℝ) : ℝ :=
  if stored.length ≠ current.length ∨ stored.length = 0 then 0
  else
    let distance := Real.sqrt (sumSquares stored current)
    let confidence := max 0 (1 - distance / maxDistance)
    (jsRound (confidence * 1000) : ℝ) / 1000

/-- `const checkInWindow = 15` (early allowance in minutes). -/
def checkInWindow : ℤ := 15

/-- `const lateThreshold = 10` (minutes after start time). -/
def lateThreshold : ℤ := 10

/-- Status classification of the recognition route:
`LATE` iff `currentTime > startTime + lateThreshold`. -/
def checkInStatus (s : Schedule) (now : Now) : Status :=
  if now.minutes > schedStartMinutes s + lateThreshold then Status.LATE else Status.PRESENT

end Recognition

namespace Part006

/-- `const FACE_SIMILARITY_THRESHOLD = 0.6` of the duplicated handler. -/
noncomputable def FACE_SIMILARITY_THRESHOLD : ℝ := 0.6

/-- `calculateDistance` of `src/unnamed/part_006`: throws on a length
mismatch (and only then), otherwise returns the Euclidean distance. -/
noncomputable def calculateDistance (descriptors1 descriptors2 : List ℝ) : Except String ℝ :=
  if descriptors1.length ≠ descriptors2.length then
    Except.error "Face descriptor lengths do not match"
  else Except.ok (Real.sqrt (sumSquares descriptors1 descriptors2))

end Part006

/-- Spec-side formulation for the refinement claim about the scorer
(section 4.1 of the spec): the Euclidean distance
`sqrt (sum over i of (S_i - C_i)^2)` written over the paired components. -/
noncomputable def euclideanDistSpec (S C : List ℝ) : ℝ :=
  Real.sqrt (((S.zip C).map (fun p => (p.1 - p.2) ^ 2)).sum)

/-- Spec-side rounding to 3 decimal places. -/
noncomputable def roundTo3 (x : ℝ) : ℝ := (jsRound (x * 1000) : ℝ) / 1000

/-- Spec-side score: `max 0 (1 - d / maxDistance)` rounded to 3 decimals. -/
noncomputable def scoreSpec (S C : List ℝ) : ℝ :=
  roundTo3 (max 0 (1 - euclideanDistSpec S C / Recognition.maxDistance))

/-- The WiFi clause shared by both location validators:
`wifiSSID && room.allowedWifiSSIDs` (a supplied non-empty SSID together
with a non-null allowed list — a JavaScript array is always truthy)
followed by `!allowedSSIDs.includes(wifiSSID)`. -/
def wifiNotAllowed (w : Option String) (allowed : Option (List String)) : Prop :=
  match w, allowed with
  | some s, some l => s ≠ "" ∧ s ∉ l
  | _, _ => False

instance (w : Option String) (a : Option (List String)) : Decidable (wifiNotAllowed w a) :=
  match w, a with
  | some s, some l => inferInstanceAs (Decidable (s ≠ "" ∧ s ∉ l))
  | some _, none => isFalse fun h => h
  | none, some _ => isFalse fun h => h
  | none, none => isFalse fun h => h

namespace Attendance

/-- `calculateDistance` of `src/app/api/attendance/route.ts`: haversine
distance in meters with Earth radius `R = 6371` km. -/
noncomputable def calculateDistance (lat1 lon1 lat2 lon2 : ℝ) : ℝ :=
  let R : ℝ := 6371
  let dLat := (lat2 - lat1) * Real.pi / 180
  let dLon := (lon2 - lon1) * Real.pi / 180
  let a := Real.sin (dLat / 2) * Real.sin (dLat / 2) +
    Real.cos (lat1 * Real.pi / 180) * Real.cos (lat2 * Real.pi / 180) *
    Real.sin (dLon / 2) * Real.sin (dLon / 2)
  let c := 2 * jsAtan2 (Real.sqrt a) (Real.sqrt (1 - a))
  R * c * 1000

/-- The GPS clause of `validateLocation`:
`coordinates && classRoom.room.latitude && classRoom.room.longitude` —
the coordinates object must be present and both stored components must be
non-null and, by JavaScript truthiness, nonzero — followed by the
distance/radius comparison with `room.radius || 50`. -/
noncomputable def gpsTooFar (coordinates : Option Coordinates) (room : Room) : Prop :=
  match coordinates, room.latitude, room.longitude with
  | some c, some rlat, some rlng =>
      rlat ≠ 0 ∧ rlng ≠ 0 ∧
        calculateDistance c.latitude c.longitude rlat rlng > defaultRadius room.radius
  | _, _, _ => False

noncomputable instance (co : Option Coordinates) (room : Room) :
    Decidable (gpsTooFar co room) :=
  Classical.propDecidable _

/-- `validateLocation` of the attendance route. -/
noncomputable def validateLocation (db : DB) (classId : String)
    (coordinates : Option Coordinates) (wifiSSID : Option String) : LocationCheck :=
  match findClassSession db classId with
  | none => ⟨false, some "Class or room not found"⟩
  | some classRoom =>
    match classRoom.room with
    | none => ⟨false, some "Class or room not found"⟩
    | some room =>
      if wifiNotAllowed wifiSSID room.allowedWifiSSIDs then
        ⟨false, some "WiFi network not allowed for this location"⟩
      else if gpsTooFar coordinates room then
        ⟨false, some "Location too far from class room"⟩
      else ⟨true, none⟩

end Attendance

namespace Part006

/-- `calculateGPSDistance` of the duplicated handler: haversine distance
in meters with `R = 6371e3`. -/
noncomputable def calculateGPSDistance (lat1 lng1 lat2 lng2 : ℝ) : ℝ :=
  let R : ℝ := 6371000
  let p1 := lat1 * Real.pi / 180
  let p2 := lat2 * Real.pi / 180
  let dp := (lat2 - lat1) * Real.pi / 180
  let dl := (lng2 - lng1) * Real.pi / 180
  let a := Real.sin (dp / 2) * Real.sin (dp / 2) +
    Real.cos p1 * Real.cos p2 * Real.sin (dl / 2) * Real.sin (dl / 2)
  let c := 2 * jsAtan2 (Real.sqrt a) (Real.sqrt (1 - a))
  R * c

/-- The GPS clause of `verifyLocation`:
`gpsLat && gpsLng && classInfo.room.latitude && classInfo.room.longitude`
— all four values must be present and, by JavaScript truthiness, nonzero,
so a claimed latitude or longitude of exactly 0 skips the whole check. -/
noncomputable def gpsFailed (gpsLat gpsLng : Option ℝ) (room : Room) : Prop :=
  match gpsLat, gpsLng, room.latitude, room.longitude with
  | some glat, some glng, some rlat, some rlng =>
      glat ≠ 0 ∧ glng ≠ 0 ∧ rlat ≠ 0 ∧ rlng ≠ 0 ∧
        calculateGPSDistance glat glng rlat rlng > defaultRadius room.radius
  | _, _, _, _ => False

noncomputable instance (glat glng : Option ℝ) (room : Room) :
    Decidable (gpsFailed glat glng room) :=
  Classical.propDecidable _

/-- `verifyLocation` of the duplicated handler. -/
noncomputable def verifyLocation (db : DB) (classId : String) (wifiSsid : Option String)
    (gpsLat gpsLng : Option ℝ) : LocationCheck :=
  match findClassSession db classId with
  | none => ⟨false, some "Class or room information not found"⟩
  | some classInfo =>
    match classInfo.room with
    | none => ⟨false, some "Class or room information not found"⟩
    | some room =>
      if wifiNotAllowed wifiSsid room.allowedWifiSSIDs then
        ⟨false, some "WiFi network not allowed for this location"⟩
      else if gpsFailed gpsLat gpsLng room then
        ⟨false, some "Location too far from classroom"⟩
      else ⟨true, none⟩

end Part006

/-- A room whose stored GPS center is (0, 0) — both components are
JavaScript-falsy — with a configured 50 m radius. -/
noncomputable def roomZero : Room := ⟨none, some 0, some 0, some 50⟩

/-- Class session located in `roomZero`. -/
noncomputable def sessionZero : ClassSession := ⟨"c0", some roomZero, 0⟩

/-- Store containing only `sessionZero`. -/
noncomputable def dbC7 : DB := ⟨[], [], [sessionZero], [], [], []⟩

/-- A room stored at (90, 45) with a 50 m radius. -/
noncomputable def roomPole : Room := ⟨none, some 90, some 45, some 50⟩

/-- Class session located in `roomPole`. -/
noncomputable def sessionPole : ClassSession := ⟨"c1", some roomPole, 0⟩

/-- Store containing only `sessionPole`. -/
noncomputable def dbC7w : DB := ⟨[], [], [sessionPole], [], [], []⟩

namespace Recognition

/-- `POST` of `src/app/api/face/recognition/route.ts`, after rate
limiting, authentication and schema validation (out of scope): the
admission decision proper.  Returns the response and the post-state of
the store.  The check order of the source is preserved: face profile,
class lookup (with ACTIVE-filtered enrollments), enrollment, WiFi,
scheduled day, check-in window, face match (logging a failed
`faceQualityLog` on mismatch), duplicate check, then the attendance
create and a success log. -/
noncomputable def POST (db : DB) (userId : String) (req : RecRequest) (now : Now) :
    Except AdmissionError Status × DB :=
  match findFaceProfile db userId with
  | none => (Except.error AdmissionError.FaceProfileMissing, db)
  | some profile =>
    match findClassInfo db req.classId with
    | none => (Except.error AdmissionError.ClassNotFound, db)
    | some classInfo =>
      if (activeEnrollments db userId req.classId).length = 0 then
        (Except.error AdmissionError.NotEnrolled, db)
      else if wifiTruthy req.wifiSsid && (classInfo.wifiSsid != req.wifiSsid.getD "") then
        (Except.error (AdmissionError.LocationRejected
          "Invalid location. Please connect to the correct WiFi network."), db)
      else if classInfo.schedule.dayOfWeek ≠ now.weekday then
        (Except.error AdmissionError.NotScheduledToday, db)
      else if now.minutes < schedStartMinutes classInfo.schedule - checkInWindow ∨
          now.minutes > schedEndMinutes classInfo.schedule then
        (Except.error AdmissionError.OutsideCheckInWindow, db)
      else if calculateFaceConfidence profile.faceDescriptors req.faceDescriptors <
          profile.confidenceThreshold then
        (Except.error AdmissionError.FaceMismatch,
          { db with faceQualityLogs :=
              ⟨userId, calculateFaceConfidence profile.faceDescriptors req.faceDescriptors,
                false⟩ :: db.faceQualityLogs })
      else if dupAttendanceExists db.attendances userId req.classId now.day then
        (Except.error AdmissionError.DuplicateCheckIn, db)
      else
        (Except.ok (checkInStatus classInfo.schedule now),
          { addAttendance db
              ⟨userId, req.classId, now.day, checkInStatus classInfo.schedule now,
                some (calculateFaceConfidence profile.faceDescriptors req.faceDescriptors),
                req.wifiSsid, req.gpsLat, req.gpsLng⟩ with
            faceQualityLogs :=
              ⟨userId, calculateFaceConfidence profile.faceDescriptors req.faceDescriptors,
                true⟩ :: db.faceQualityLogs })

end Recognition

namespace Attendance

/-- `POST` of `src/app/api/attendance/route.ts`, after rate limiting,
authentication and schema validation: class lookup (with enrollments of
any status), enrollment-empty check, duplicate check, location
validation, status classification with the 15-minute late threshold over
instants, then the attendance create. -/
noncomputable def POST (db : DB) (userId : String) (req : AttRequest) (now : Now) :
    Except AdmissionError Status × DB :=
  match findClassSession db req.classId with
  | none => (Except.error AdmissionError.ClassNotFound, db)
  | some classSession =>
    if (anyEnrollments db userId req.classId).length = 0 then
      (Except.error AdmissionError.NotEnrolled, db)
    else if dupAttendanceExists db.attendances userId req.classId now.day then
      (Except.error AdmissionError.DuplicateCheckIn, db)
    else if (validateLocation db req.classId req.coordinates req.wifiSSID).valid = false then
      (Except.error (AdmissionError.LocationRejected
        ((validateLocation db req.classId req.coordinates req.wifiSSID).reason.getD "")), db)
    else
      (Except.ok
          (if now.instant > classSession.startTime + 15 then Status.LATE else Status.PRESENT),
        addAttendance db
          ⟨userId, req.classId, now.day,
            (if now.instant > classSession.startTime + 15 then Status.LATE
             else Status.PRESENT),
            none, req.wifiSSID, req.coordinates.map Coordinates.latitude,
            req.coordinates.map Coordinates.longitude⟩)

end Attendance

/-- The check-then-act interleaving of two concurrent admission requests
described in section 5 of the spec: both duplicate lookups (the step-4
reads) run against the same store snapshot before either step-7 write.
The reads and writes are exactly the `dupAttendanceExists` query and the
`addAttendance` insert used by the handlers; the insert is unconditional
because the store enforces no uniqueness constraint on
(user, class, day). -/
def raceCheckThenAct (db : DB) (a1 a2 : AttendanceRec) : Bool × Bool × DB :=
  let chk1 := dupAttendanceExists db.attendances a1.userId a1.classId a1.day
  let chk2 := dupAttendanceExists db.attendances a2.userId a2.classId a2.day
  let db1 := if chk1 then db else addAttendance db a1
  let db2 := if chk2 then db1 else addAttendance db1 a2
  (chk1, chk2, db2)

/-- The empty store. -/
def dbEmpty : DB := ⟨[], [], [], [], [], []⟩

/-- A recognition request for class "c" with an empty descriptor list. -/
def reqRecEmpty : RecRequest := ⟨[], "c", none, none, none⟩

/-- Midnight of day 0, weekday 0. -/
def now0 : Now := ⟨0, 0, 0, 0⟩

/-- Face profile of user "u": stored descriptor `[0]`, threshold 0.8. -/
noncomputable def profileU : FaceProfile := ⟨"u", [0], 0.8⟩

/-- Weekly schedule: weekday 1, 09:00 to 11:00. -/
def schedMorning : Schedule := ⟨1, 9, 0, 11, 0⟩

/-- Class "c" of the recognition route with `schedMorning`. -/
def classC : ClassInfo := ⟨"c", "campus-wifi", schedMorning⟩

/-- ACTIVE enrollment of "u" in "c". -/
def enrollUC : Enrollment := ⟨"u", "c", EnrollmentStatus.ACTIVE⟩

/-- Store for the recognition-route scenarios: profile, class and ACTIVE
enrollment present, empty ledger. -/
noncomputable def dbRec : DB := ⟨[profileU], [classC], [], [enrollUC], [], []⟩

/-- A matching submission: descriptor equal to the stored `[0]`. -/
noncomputable def reqMatch : RecRequest := ⟨[0], "c", none, none, none⟩

/-- A non-matching submission: descriptor `[3]`, Euclidean distance 3. -/
noncomputable def reqMismatch : RecRequest := ⟨[3], "c", none, none, none⟩

/-- Day 0, weekday 1 (the scheduled day), 10:00. -/
def nowClass : Now := ⟨0, 1, 600, 0⟩

/-- A room with no WiFi list and no GPS center. -/
def roomPlain : Room := ⟨none, none, none, none⟩

/-- Class session "c" of the attendance route, starting at instant 0. -/
def sessionC : ClassSession := ⟨"c", some roomPlain, 0⟩

/-- INACTIVE enrollment of "u" in "c". -/
def enrollInactive : Enrollment := ⟨"u", "c", EnrollmentStatus.INACTIVE⟩

/-- Store for the attendance-route scenario: class present, the only
enrollment row INACTIVE, empty ledger. -/
def dbAtt : DB := ⟨[], [], [sessionC], [enrollInactive], [], []⟩

/-- An attendance request for "c" with no location evidence. -/
def reqAtt : AttRequest := ⟨"c", none, none⟩

/-- An evidence-free attendance record of "u" in "c" on day 0. -/
def attRec0 : AttendanceRec := ⟨"u", "c", 0, Status.PRESENT, none, none, none, none⟩

/-- Store whose ledger already holds `attRec0`. -/
def dbDup : DB := ⟨[], [], [sessionC], [enrollInactive], [attRec0], []⟩

end Absensi

namespace Absensi

/-- `sumSquares S S = 0`. -/
lemma sumSquares_self (S : List ℝ) : sumSquares S S = 0 := by
  simp [sumSquares]

/-- `jsRound` of an integer is that integer. -/
lemma jsRound_intCast (n : ℤ) : jsRound (n : ℝ) = n := by
  unfold jsRound
  rw [Int.floor_eq_iff]
  constructor
  · linarith
  · linarith

/-- The scorer is `1` on identical non-empty descriptor vectors. -/
lemma calculateFaceConfidence_self (S : List ℝ) (h : S ≠ []) :
    Recognition.calculateFaceConfidence S S = 1 := by
  unfold Recognition.calculateFaceConfidence
  rw [if_neg]
  · rw [sumSquares_self, Real.sqrt_zero]
    norm_num [Recognition.maxDistance]
    rw [show (1000 : ℝ) = ((1000 : ℤ) : ℝ) by norm_num, jsRound_intCast]
    norm_num
  · simp [List.length_eq_zero, h]

/-- The scorer returns `0` whenever the lengths differ or the stored
vector is empty. -/
lemma calculateFaceConfidence_degenerate (S C : List ℝ)
    (h : S.length ≠ C.length ∨ S = []) :
    Recognition.calculateFaceConfidence S C = 0 := by
  unfold Recognition.calculateFaceConfidence
  rw [if_pos]
  rcases h with h | h
  · exact Or.inl h
  · exact Or.inr (by simp [h])

/-- The loop sum equals the sum over zipped components when the lengths
agree. -/
lemma sumSquares_eq_zipSum : ∀ S C : List ℝ, S.length = C.length →
    sumSquares S C = ((S.zip C).map (fun p => (p.1 - p.2) ^ 2)).sum := by
  intro S
  induction S with
  | nil => intro C h; simp [sumSquares]
  | cons a S ih =>
    intro C h
    cases C with
    | nil => simp at h
    | cons b C =>
      have hl : S.length = C.length := by simpa using h
      unfold sumSquares
      rw [List.length_cons, Finset.sum_range_succ']
      simp only [List.getD_cons_succ, List.getD_cons_zero]
      rw [show (∑ i ∈ Finset.range S.length, (S.getD i 0 - C.getD i 0) ^ 2)
            = sumSquares S C from rfl]
      rw [ih C hl]
      simp [List.zip_cons_cons]
      ring

/-- C2: for every pair of equal-length non-empty descriptor vectors the
scorer returns `max 0 (1 - d / maxDistance)` rounded to 3 decimal places,
where `d` is the Euclidean distance over the components, and the score of
a vector against itself is 1.  Determinism and absence of side effects
hold because `calculateFaceConfidence` is a pure function of its two
arguments. -/
theorem c2_face_match_scorer (S C : List ℝ) (hlen : S.length = C.length) (hne : S ≠ []) :
    Recognition.calculateFaceConfidence S C = scoreSpec S C ∧
    Recognition.calculateFaceConfidence S S = 1 := by
  have hC : C ≠ [] := by
    intro h
    apply hne
    rw [← List.length_eq_zero, hlen, h]
    rfl
  constructor
  · unfold Recognition.calculateFaceConfidence
    rw [if_neg (by simp [hlen, List.length_eq_zero, hC])]
    unfold scoreSpec roundTo3 euclideanDistSpec
    rw [sumSquares_eq_zipSum S C hlen]
  · exact calculateFaceConfidence_self S hne

/-- C2 witness: the theorem evaluated on concrete one-component vectors. -/
theorem c2_face_match_scorer_witness :
    Recognition.calculateFaceConfidence [(0 : ℝ)] [0] = scoreSpec [0] [0] ∧
    Recognition.calculateFaceConfidence [(0 : ℝ)] [(0 : ℝ)] = 1 :=
  c2_face_match_scorer [0] [0] rfl (by simp)

/-- C6 counterexample: on the empty pair the duplicated handler's
`calculateDistance` succeeds with distance 0 instead of failing, and on a
length mismatch `calculateFaceConfidence` returns the numeric score 0
rather than an error result — so neither scorer fails with
`DescriptorLengthMismatch` on every mismatched-or-empty input. -/
theorem c6_counterexample :
    Part006.calculateDistance ([] : List ℝ) ([] : List ℝ) = Except.ok 0 ∧
    Recognition.calculateFaceConfidence [(1 : ℝ)] [] = 0 := by
  constructor
  · unfold Part006.calculateDistance
    rw [if_neg (by simp), sumSquares_self, Real.sqrt_zero]
  · exact calculateFaceConfidence_degenerate _ _ (Or.inl (by simp))

/-- C6 amended: the duplicated handler's `calculateDistance` throws the
length-mismatch error exactly when the lengths differ (so empty
equal-length vectors are accepted, with distance 0), while the main
route's `calculateFaceConfidence` signals a mismatched or empty input by
returning confidence 0 instead of an error result. -/
theorem c6_amended (S C : List ℝ) :
    (Part006.calculateDistance S C =
        Except.error "Face descriptor lengths do not match" ↔ S.length ≠ C.length) ∧
    (S.length ≠ C.length ∨ S = [] → Recognition.calculateFaceConfidence S C = 0) := by
  constructor
  · constructor
    · intro h
      by_cases hlen : S.length ≠ C.length
      · exact hlen
      · unfold Part006.calculateDistance at h
        rw [if_neg hlen] at h
        exact absurd h (by simp)
    · intro h
      unfold Part006.calculateDistance
      rw [if_pos h]
  · exact calculateFaceConfidence_degenerate S C

/-- C6 amended witness: the amended theorem evaluated at a concrete
mismatched pair. -/
theorem c6_amended_witness :
    Part006.calculateDistance [(1 : ℝ), 2] [3] =
      Except.error "Face descriptor lengths do not match" ∧
    Recognition.calculateFaceConfidence [(1 : ℝ), 2] [3] = 0 :=
  ⟨(c6_amended [1, 2] [3]).1.mpr (by simp), (c6_amended [1, 2] [3]).2 (Or.inl (by simp))⟩

/-- `jsAtan2` on a positive second argument is `arctan (y / x)`. -/
lemma jsAtan2_pos (y x : ℝ) (hx : 0 < x) : jsAtan2 y x = Real.arctan (y / x) := by
  unfold jsAtan2
  rw [if_pos hx]

/-- The haversine distance from a point to itself is 0. -/
lemma calculateDistance_self (lat lng : ℝ) :
    Attendance.calculateDistance lat lng lat lng = 0 := by
  simp only [Attendance.calculateDistance]
  rw [sub_self, sub_self]
  simp only [zero_mul, zero_div, Real.sin_zero, mul_zero, zero_add, add_zero,
    Real.sqrt_zero, sub_zero, Real.sqrt_one]
  rw [jsAtan2_pos 0 1 one_pos, zero_div, Real.arctan_zero]
  ring

/-- The haversine distance from the north pole to the equator point under
the prime meridian: a quarter of the Earth circumference. -/
lemma calculateDistance_pole :
    Attendance.calculateDistance 90 0 0 0 = 3185500 * Real.pi := by
  simp only [Attendance.calculateDistance]
  rw [show ((0 : ℝ) - 90) * Real.pi / 180 / 2 = -(Real.pi / 4) from by ring]
  rw [show ((0 : ℝ) - 0) * Real.pi / 180 / 2 = 0 from by ring]
  rw [show (90 : ℝ) * Real.pi / 180 = Real.pi / 2 from by ring]
  rw [Real.cos_pi_div_two, Real.sin_zero]
  have key : Real.sin (-(Real.pi / 4)) * Real.sin (-(Real.pi / 4)) = 1 / 2 := by
    rw [Real.sin_neg, Real.sin_pi_div_four]
    rw [show -(Real.sqrt 2 / 2) * -(Real.sqrt 2 / 2) = Real.sqrt 2 * Real.sqrt 2 / 4 from by
      ring]
    rw [Real.mul_self_sqrt (by norm_num : (0 : ℝ) ≤ 2)]
    norm_num
  simp only [zero_mul, mul_zero, add_zero, key]
  rw [show (1 : ℝ) - 1 / 2 = 1 / 2 from by norm_num]
  have hpos : 0 < Real.sqrt (1 / 2) := Real.sqrt_pos.mpr (by norm_num)
  rw [jsAtan2_pos _ _ hpos, div_self (ne_of_gt hpos), Real.arctan_one]
  ring

/-- `validateLocation` after the class and room lookups succeed. -/
lemma validateLocation_eq (db : DB) (cid : String) (k : ClassSession) (room : Room)
    (co : Option Coordinates) (w : Option String)
    (hk : findClassSession db cid = some k) (hr : k.room = some room) :
    Attendance.validateLocation db cid co w =
      if wifiNotAllowed w room.allowedWifiSSIDs then
        ⟨false, some "WiFi network not allowed for this location"⟩
      else if Attendance.gpsTooFar co room then
        ⟨false, some "Location too far from class room"⟩
      else ⟨true, none⟩ := by
  simp only [Attendance.validateLocation, hk, hr]

/-- C7 counterexample: a room whose stored GPS center is (0, 0) with a
50 m radius.  A claimed point at latitude 90 is about 10,007 km away by
the haversine formula, yet `validateLocation` passes, because the stored
latitude 0 is JavaScript-falsy and the GPS check is skipped — so the
validator does not fail exactly when the distance exceeds the radius. -/
theorem c7_counterexample :
    Attendance.validateLocation dbC7 "c0" (some ⟨90, 0⟩) none = ⟨true, none⟩ ∧
    Attendance.calculateDistance 90 0 0 0 > 50 := by
  constructor
  · rw [validateLocation_eq dbC7 "c0" sessionZero roomZero (some ⟨90, 0⟩) none rfl rfl]
    rw [if_neg (by simp [wifiNotAllowed])]
    rw [if_neg (by simp [Attendance.gpsTooFar, roomZero])]
  · rw [calculateDistance_pole]
    nlinarith [Real.pi_gt_three]

/-- C7 amended: when the room's stored latitude and longitude are present
and nonzero, coordinates are supplied and the WiFi clause does not fire,
`validateLocation` fails with "Location too far from class room" exactly
when the haversine distance (Earth radius 6371 km) exceeds the room's
radius, where a null radius — and, by the `radius || 50` truthiness, also
a zero radius — is replaced by 50 m; when the stored latitude or
longitude is 0 the GPS check is skipped entirely. -/
theorem c7_amended (db : DB) (cid : String) (co : Coordinates) (k : ClassSession)
    (room : Room) (rlat rlng : ℝ)
    (hk : findClassSession db cid = some k) (hr : k.room = some room)
    (hlat : room.latitude = some rlat) (hlat0 : rlat ≠ 0)
    (hlng : room.longitude = some rlng) (hlng0 : rlng ≠ 0) :
    Attendance.validateLocation db cid (some co) none =
        ⟨false, some "Location too far from class room"⟩ ↔
      Attendance.calculateDistance co.latitude co.longitude rlat rlng >
        defaultRadius room.radius := by
  rw [validateLocation_eq db cid k room (some co) none hk hr]
  rw [if_neg (by simp [wifiNotAllowed])]
  have hgps : Attendance.gpsTooFar (some co) room ↔
      Attendance.calculateDistance co.latitude co.longitude rlat rlng >
        defaultRadius room.radius := by
    simp only [Attendance.gpsTooFar, hlat, hlng]
    simp [hlat0, hlng0]
  constructor
  · intro h
    by_cases hg : Attendance.gpsTooFar (some co) room
    · exact hgps.mp hg
    · rw [if_neg hg] at h
      exact absurd h (by simp)
  · intro h
    rw [if_pos (hgps.mpr h)]

/-- C7 amended witness: the theorem evaluated for the room at (90, 45):
the claimed point equal to the center is at haversine distance 0, which
does not exceed the 50 m radius. -/
theorem c7_amended_witness :
    (Attendance.validateLocation dbC7w "c1" (some ⟨90, 45⟩) none =
        ⟨false, some "Location too far from class room"⟩ ↔
      Attendance.calculateDistance 90 45 90 45 > defaultRadius (some 50)) ∧
    Attendance.calculateDistance 90 45 90 45 = 0 :=
  ⟨c7_amended dbC7w "c1" ⟨90, 45⟩ sessionPole roomPole 90 45 rfl rfl rfl
      (by norm_num) rfl (by norm_num),
    calculateDistance_self 90 45⟩

/-- `verifyLocation` when the class lookup fails. -/
lemma verifyLocation_noClass (db : DB) (cid : String) (w : Option String)
    (glat glng : Option ℝ) (hk : findClassSession db cid = none) :
    Part006.verifyLocation db cid w glat glng =
      ⟨false, some "Class or room information not found"⟩ := by
  simp only [Part006.verifyLocation, hk]

/-- `verifyLocation` when the class has no room. -/
lemma verifyLocation_noRoom (db : DB) (cid : String) (k : ClassSession)
    (w : Option String) (glat glng : Option ℝ)
    (hk : findClassSession db cid = some k) (hr : k.room = none) :
    Part006.verifyLocation db cid w glat glng =
      ⟨false, some "Class or room information not found"⟩ := by
  simp only [Part006.verifyLocation, hk, hr]

/-- `verifyLocation` after the class and room lookups succeed. -/
lemma verifyLocation_eq (db : DB) (cid : String) (k : ClassSession) (room : Room)
    (w : Option String) (glat glng : Option ℝ)
    (hk : findClassSession db cid = some k) (hr : k.room = some room) :
    Part006.verifyLocation db cid w glat glng =
      if wifiNotAllowed w room.allowedWifiSSIDs then
        ⟨false, some "WiFi network not allowed for this location"⟩
      else if Part006.gpsFailed glat glng room then
        ⟨false, some "Location too far from classroom"⟩
      else ⟨true, none⟩ := by
  simp only [Part006.verifyLocation, hk, hr]

/-- C10: in the duplicated handler, a claimed GPS latitude or longitude
of exactly 0 makes the truthiness test on the coordinates fail, so the
GPS distance check is skipped and `verifyLocation` never reports
"Location too far from classroom", however far the claimed point is. -/
theorem c10_zero_coordinate_skips_gps (db : DB) (cid : String) (w : Option String)
    (glat glng : Option ℝ) (h : glat = some 0 ∨ glng = some 0) :
    ((Part006.verifyLocation db cid w glat glng).reason ==
        some "Location too far from classroom") = false := by
  cases hk : findClassSession db cid with
  | none =>
    rw [verifyLocation_noClass db cid w glat glng hk]
    rfl
  | some k =>
    cases hr : k.room with
    | none =>
      rw [verifyLocation_noRoom db cid k w glat glng hk hr]
      rfl
    | some room =>
      rw [verifyLocation_eq db cid k room w glat glng hk hr]
      by_cases hw : wifiNotAllowed w room.allowedWifiSSIDs
      · rw [if_pos hw]
        rfl
      · have hg : ¬ Part006.gpsFailed glat glng room := by
          rcases h with h | h
          · subst h
            cases glng <;> cases hlat : room.latitude <;> cases hlng : room.longitude <;>
              simp [Part006.gpsFailed, hlat, hlng]
          · subst h
            cases glat <;> cases hlat : room.latitude <;> cases hlng : room.longitude <;>
              simp [Part006.gpsFailed, hlat, hlng]
        rw [if_neg hw, if_neg hg]
        rfl

/-- C10 witness: the theorem evaluated at a claimed point (0, 1000) far
from the room at (90, 45). -/
theorem c10_witness :
    ((Part006.verifyLocation dbC7w "c1" none (some 0) (some 1000)).reason ==
        some "Location too far from classroom") = false :=
  c10_zero_coordinate_skips_gps dbC7w "c1" none (some 0) (some 1000) (Or.inl rfl)

section RecognitionSteps

variable (db : DB) (u : String) (req : RecRequest) (now : Now)

/-- Step 1 of the recognition handler: no face profile. -/
lemma post_profileMissing (hp : findFaceProfile db u = none) :
    Recognition.POST db u req now = (Except.error AdmissionError.FaceProfileMissing, db) := by
  simp only [Recognition.POST, hp]

/-- Step 2: class not found. -/
lemma post_classMissing (p : FaceProfile) (hp : findFaceProfile db u = some p)
    (hk : findClassInfo db req.classId = none) :
    Recognition.POST db u req now = (Except.error AdmissionError.ClassNotFound, db) := by
  simp only [Recognition.POST, hp, hk]

/-- Step 3: no ACTIVE enrollment. -/
lemma post_notEnrolled (p : FaceProfile) (k : ClassInfo)
    (hp : findFaceProfile db u = some p) (hk : findClassInfo db req.classId = some k)
    (he : (activeEnrollments db u req.classId).length = 0) :
    Recognition.POST db u req now = (Except.error AdmissionError.NotEnrolled, db) := by
  simp only [Recognition.POST, hp, hk]
  rw [if_pos he]

/-- Step 4: wrong WiFi network. -/
lemma post_wifiRejected (p : FaceProfile) (k : ClassInfo)
    (hp : findFaceProfile db u = some p) (hk : findClassInfo db req.classId = some k)
    (he : (activeEnrollments db u req.classId).length ≠ 0)
    (hw : (wifiTruthy req.wifiSsid && (k.wifiSsid != req.wifiSsid.getD "")) = true) :
    Recognition.POST db u req now =
      (Except.error (AdmissionError.LocationRejected
        "Invalid location. Please connect to the correct WiFi network."), db) := by
  simp only [Recognition.POST, hp, hk]
  rw [if_neg he, if_pos hw]

/-- Step 5: class not scheduled today. -/
lemma post_wrongDay (p : FaceProfile) (k : ClassInfo)
    (hp : findFaceProfile db u = some p) (hk : findClassInfo db req.classId = some k)
    (he : (activeEnrollments db u req.classId).length ≠ 0)
    (hw : (wifiTruthy req.wifiSsid && (k.wifiSsid != req.wifiSsid.getD "")) = false)
    (hd : k.schedule.dayOfWeek ≠ now.weekday) :
    Recognition.POST db u req now = (Except.error AdmissionError.NotScheduledToday, db) := by
  simp only [Recognition.POST, hp, hk]
  rw [if_neg he, if_neg (by simp [hw]), if_pos hd]

/-- Step 6: outside the check-in window. -/
lemma post_outsideWindow (p : FaceProfile) (k : ClassInfo)
    (hp : findFaceProfile db u = some p) (hk : findClassInfo db req.classId = some k)
    (he : (activeEnrollments db u req.classId).length ≠ 0)
    (hw : (wifiTruthy req.wifiSsid && (k.wifiSsid != req.wifiSsid.getD "")) = false)
    (hd : k.schedule.dayOfWeek = now.weekday)
    (hwin : now.minutes < schedStartMinutes k.schedule - Recognition.checkInWindow ∨
      now.minutes > schedEndMinutes k.schedule) :
    Recognition.POST db u req now = (Except.error AdmissionError.OutsideCheckInWindow, db) := by
  simp only [Recognition.POST, hp, hk]
  rw [if_neg he, if_neg (by simp [hw]), if_neg (by simp [hd]), if_pos hwin]

/-- Step 7: face mismatch, which also writes a failed quality log. -/
lemma post_faceMismatch (p : FaceProfile) (k : ClassInfo)
    (hp : findFaceProfile db u = some p) (hk : findClassInfo db req.classId = some k)
    (he : (activeEnrollments db u req.classId).length ≠ 0)
    (hw : (wifiTruthy req.wifiSsid && (k.wifiSsid != req.wifiSsid.getD "")) = false)
    (hd : k.schedule.dayOfWeek = now.weekday)
    (hwin : ¬(now.minutes < schedStartMinutes k.schedule - Recognition.checkInWindow ∨
      now.minutes > schedEndMinutes k.schedule))
    (hf : Recognition.calculateFaceConfidence p.faceDescriptors req.faceDescriptors <
      p.confidenceThreshold) :
    Recognition.POST db u req now =
      (Except.error AdmissionError.FaceMismatch,
        { db with faceQualityLogs :=
            ⟨u, Recognition.calculateFaceConfidence p.faceDescriptors req.faceDescriptors,
              false⟩ :: db.faceQualityLogs }) := by
  simp only [Recognition.POST, hp, hk]
  rw [if_neg he, if_neg (by simp [hw]), if_neg (by simp [hd]), if_neg hwin, if_pos hf]

/-- Step 8: duplicate check-in for (user, class, today). -/
lemma post_duplicate (p : FaceProfile) (k : ClassInfo)
    (hp : findFaceProfile db u = some p) (hk : findClassInfo db req.classId = some k)
    (he : (activeEnrollments db u req.classId).length ≠ 0)
    (hw : (wifiTruthy req.wifiSsid && (k.wifiSsid != req.wifiSsid.getD "")) = false)
    (hd : k.schedule.dayOfWeek = now.weekday)
    (hwin : ¬(now.minutes < schedStartMinutes k.schedule - Recognition.checkInWindow ∨
      now.minutes > schedEndMinutes k.schedule))
    (hf : ¬ Recognition.calculateFaceConfidence p.faceDescriptors req.faceDescriptors <
      p.confidenceThreshold)
    (hdup : dupAttendanceExists db.attendances u req.classId now.day = true) :
    Recognition.POST db u req now = (Except.error AdmissionError.DuplicateCheckIn, db) := by
  simp only [Recognition.POST, hp, hk]
  rw [if_neg he, if_neg (by simp [hw]), if_neg (by simp [hd]), if_neg hwin, if_neg hf,
    if_pos hdup]

/-- Step 9: all checks pass — the attendance record and a success log are
written. -/
lemma post_ok (p : FaceProfile) (k : ClassInfo)
    (hp : findFaceProfile db u = some p) (hk : findClassInfo db req.classId = some k)
    (he : (activeEnrollments db u req.classId).length ≠ 0)
    (hw : (wifiTruthy req.wifiSsid && (k.wifiSsid != req.wifiSsid.getD "")) = false)
    (hd : k.schedule.dayOfWeek = now.weekday)
    (hwin : ¬(now.minutes < schedStartMinutes k.schedule - Recognition.checkInWindow ∨
      now.minutes > schedEndMinutes k.schedule))
    (hf : ¬ Recognition.calculateFaceConfidence p.faceDescriptors req.faceDescriptors <
      p.confidenceThreshold)
    (hdup : dupAttendanceExists db.attendances u req.classId now.day = false) :
    Recognition.POST db u req now =
      (Except.ok (Recognition.checkInStatus k.schedule now),
        { addAttendance db
            ⟨u, req.classId, now.day, Recognition.checkInStatus k.schedule now,
              some (Recognition.calculateFaceConfidence p.faceDescriptors
                req.faceDescriptors),
              req.wifiSsid, req.gpsLat, req.gpsLng⟩ with
          faceQualityLogs :=
            ⟨u, Recognition.calculateFaceConfidence p.faceDescriptors req.faceDescriptors,
              true⟩ :: db.faceQualityLogs }) := by
  simp only [Recognition.POST, hp, hk]
  rw [if_neg he, if_neg (by simp [hw]), if_neg (by simp [hd]), if_neg hwin, if_neg hf,
    if_neg (by simp [hdup])]

end RecognitionSteps

section AttendanceSteps

variable (db : DB) (u : String) (req : AttRequest) (now : Now)

/-- Attendance route: class not found. -/
lemma attPost_classMissing (hk : findClassSession db req.classId = none) :
    Attendance.POST db u req now = (Except.error AdmissionError.ClassNotFound, db) := by
  simp only [Attendance.POST, hk]

/-- Attendance route: no enrollment row of any status. -/
lemma attPost_notEnrolled (k : ClassSession) (hk : findClassSession db req.classId = some k)
    (he : (anyEnrollments db u req.classId).length = 0) :
    Attendance.POST db u req now = (Except.error AdmissionError.NotEnrolled, db) := by
  simp only [Attendance.POST, hk]
  rw [if_pos he]

/-- Attendance route: duplicate record for today. -/
lemma attPost_duplicate (k : ClassSession) (hk : findClassSession db req.classId = some k)
    (he : (anyEnrollments db u req.classId).length ≠ 0)
    (hdup : dupAttendanceExists db.attendances u req.classId now.day = true) :
    Attendance.POST db u req now = (Except.error AdmissionError.DuplicateCheckIn, db) := by
  simp only [Attendance.POST, hk]
  rw [if_neg he, if_pos hdup]

/-- Attendance route: location validation failed. -/
lemma attPost_locationRejected (k : ClassSession)
    (hk : findClassSession db req.classId = some k)
    (he : (anyEnrollments db u req.classId).length ≠ 0)
    (hdup : dupAttendanceExists db.attendances u req.classId now.day = false)
    (hlv : (Attendance.validateLocation db req.classId req.coordinates req.wifiSSID).valid
      = false) :
    Attendance.POST db u req now =
      (Except.error (AdmissionError.LocationRejected
        ((Attendance.validateLocation db req.classId req.coordinates
          req.wifiSSID).reason.getD "")), db) := by
  simp only [Attendance.POST, hk]
  rw [if_neg he, if_neg (by simp [hdup]), if_pos hlv]

/-- Attendance route: all checks pass — the record is written. -/
lemma attPost_ok (k : ClassSession) (hk : findClassSession db req.classId = some k)
    (he : (anyEnrollments db u req.classId).length ≠ 0)
    (hdup : dupAttendanceExists db.attendances u req.classId now.day = false)
    (hlv : (Attendance.validateLocation db req.classId req.coordinates req.wifiSSID).valid
      = true) :
    Attendance.POST db u req now =
      (Except.ok
          (if now.instant > k.startTime + 15 then Status.LATE else Status.PRESENT),
        addAttendance db
          ⟨u, req.classId, now.day,
            (if now.instant > k.startTime + 15 then Status.LATE else Status.PRESENT),
            none, req.wifiSSID, req.coordinates.map Coordinates.latitude,
            req.coordinates.map Coordinates.longitude⟩) := by
  simp only [Attendance.POST, hk]
  rw [if_neg he, if_neg (by simp [hdup]), if_neg (by simp [hlv])]

/-- Exhaustive outcome analysis of the attendance route: either it fails
before the write and leaves the store unchanged, or the duplicate check
found nothing and exactly one record is prepended. -/
lemma attPost_cases :
    (∃ e, Attendance.POST db u req now = (Except.error e, db)) ∨
    (∃ s, dupAttendanceExists db.attendances u req.classId now.day = false ∧
      Attendance.POST db u req now =
        (Except.ok s,
          addAttendance db
            ⟨u, req.classId, now.day, s, none, req.wifiSSID,
              req.coordinates.map Coordinates.latitude,
              req.coordinates.map Coordinates.longitude⟩)) := by
  cases hk : findClassSession db req.classId with
  | none => exact Or.inl ⟨_, attPost_classMissing db u req now hk⟩
  | some k =>
    by_cases he : (anyEnrollments db u req.classId).length = 0
    · exact Or.inl ⟨_, attPost_notEnrolled db u req now k hk he⟩
    · cases hdup : dupAttendanceExists db.attendances u req.classId now.day with
      | true => exact Or.inl ⟨_, attPost_duplicate db u req now k hk he hdup⟩
      | false =>
        cases hlv : (Attendance.validateLocation db req.classId req.coordinates
            req.wifiSSID).valid with
        | false => exact Or.inl ⟨_, attPost_locationRejected db u req now k hk he hdup hlv⟩
        | true => exact Or.inr ⟨_, rfl, attPost_ok db u req now k hk he hdup hlv⟩

end AttendanceSteps

section RecognitionCases

/-- Exhaustive outcome analysis of the recognition handler: either it
fails before the face-match step and leaves the store unchanged, or the
face match fails and exactly one failed quality log is prepended, or the
duplicate check found nothing and exactly one attendance record together
with one success log is prepended. -/
lemma post_cases (db : DB) (u : String) (req : RecRequest) (now : Now) :
    (∃ e, e ≠ AdmissionError.FaceMismatch ∧
      Recognition.POST db u req now = (Except.error e, db)) ∨
    (∃ c, Recognition.POST db u req now =
      (Except.error AdmissionError.FaceMismatch,
        { db with faceQualityLogs := ⟨u, c, false⟩ :: db.faceQualityLogs })) ∨
    (∃ s c, dupAttendanceExists db.attendances u req.classId now.day = false ∧
      Recognition.POST db u req now =
        (Except.ok s,
          { addAttendance db
              ⟨u, req.classId, now.day, s, some c, req.wifiSsid, req.gpsLat, req.gpsLng⟩ with
            faceQualityLogs := ⟨u, c, true⟩ :: db.faceQualityLogs })) := by
  cases hp : findFaceProfile db u with
  | none => exact Or.inl ⟨_, by simp, post_profileMissing db u req now hp⟩
  | some p =>
    cases hk : findClassInfo db req.classId with
    | none => exact Or.inl ⟨_, by simp, post_classMissing db u req now p hp hk⟩
    | some k =>
      by_cases he : (activeEnrollments db u req.classId).length = 0
      · exact Or.inl ⟨_, by simp, post_notEnrolled db u req now p k hp hk he⟩
      · cases hw : (wifiTruthy req.wifiSsid && (k.wifiSsid != req.wifiSsid.getD "")) with
        | true => exact Or.inl ⟨_, by simp, post_wifiRejected db u req now p k hp hk he hw⟩
        | false =>
          by_cases hd : k.schedule.dayOfWeek = now.weekday
          case neg =>
            exact Or.inl ⟨_, by simp, post_wrongDay db u req now p k hp hk he hw hd⟩
          case pos =>
            by_cases hwin : now.minutes < schedStartMinutes k.schedule -
                Recognition.checkInWindow ∨ now.minutes > schedEndMinutes k.schedule
            · exact Or.inl ⟨_, by simp,
                post_outsideWindow db u req now p k hp hk he hw hd hwin⟩
            · by_cases hf : Recognition.calculateFaceConfidence p.faceDescriptors
                  req.faceDescriptors < p.confidenceThreshold
              · exact Or.inr (Or.inl ⟨_,
                  post_faceMismatch db u req now p k hp hk he hw hd hwin hf⟩)
              · cases hdup : dupAttendanceExists db.attendances u req.classId now.day with
                | true => exact Or.inl ⟨_, by simp,
                    post_duplicate db u req now p k hp hk he hw hd hwin hf hdup⟩
                | false => exact Or.inr (Or.inr ⟨_, _, rfl,
                    post_ok db u req now p k hp hk he hw hd hwin hf hdup⟩)

end RecognitionCases

/-- Prepending a record whose triple is absent preserves the at-most-one
invariant. -/
lemma atMostOne_cons (a : AttendanceRec) (atts : List AttendanceRec)
    (h : AtMostOnePerTriple atts)
    (hnone : dupAttendanceExists atts a.userId a.classId a.day = false) :
    AtMostOnePerTriple (a :: atts) := by
  intro u c d
  rw [List.filter_cons]
  by_cases hm : (a.userId == u && a.classId == c && a.day == d) = true
  · have hm' : (a.userId = u ∧ a.classId = c) ∧ a.day = d := by
      simpa [Bool.and_eq_true] using hm
    obtain ⟨⟨h1, h2⟩, h3⟩ := hm'
    subst h1
    subst h2
    subst h3
    rw [if_pos hm]
    have hfilter : atts.filter
        (fun x => x.userId == a.userId && x.classId == a.classId && x.day == a.day) = [] := by
      rw [List.filter_eq_nil_iff]
      unfold dupAttendanceExists at hnone
      rw [List.any_eq_false] at hnone
      exact hnone
    rw [hfilter]
    simp
  · rw [if_neg hm]
    exact h u c d

/-- The recognition handler preserves the at-most-one invariant. -/
lemma post_preserves (db : DB) (u : String) (req : RecRequest) (now : Now)
    (h : AtMostOnePerTriple db.attendances) :
    AtMostOnePerTriple (Recognition.POST db u req now).2.attendances := by
  rcases post_cases db u req now with ⟨e, _, heq⟩ | ⟨c, heq⟩ | ⟨s, c, hdup, heq⟩
  · rw [heq]
    exact h
  · rw [heq]
    exact h
  · rw [heq]
    exact atMostOne_cons _ _ h hdup

/-- The attendance handler preserves the at-most-one invariant. -/
lemma attPost_preserves (db : DB) (u : String) (req : AttRequest) (now : Now)
    (h : AtMostOnePerTriple db.attendances) :
    AtMostOnePerTriple (Attendance.POST db u req now).2.attendances := by
  rcases attPost_cases db u req now with ⟨e, heq⟩ | ⟨s, hdup, heq⟩
  · rw [heq]
    exact h
  · rw [heq]
    exact atMostOne_cons _ _ h hdup

/-- If a duplicate exists, the recognition handler writes no attendance
record. -/
lemma post_dup_no_write (db : DB) (u : String) (req : RecRequest) (now : Now)
    (hdup : dupAttendanceExists db.attendances u req.classId now.day = true) :
    (Recognition.POST db u req now).2.attendances = db.attendances := by
  rcases post_cases db u req now with ⟨e, _, heq⟩ | ⟨c, heq⟩ | ⟨s, c, hdup', heq⟩
  · rw [heq]
  · rw [heq]
  · rw [hdup] at hdup'
    simp at hdup'

/-- If a duplicate exists, the attendance handler writes no attendance
record. -/
lemma attPost_dup_no_write (db : DB) (u : String) (req : AttRequest) (now : Now)
    (hdup : dupAttendanceExists db.attendances u req.classId now.day = true) :
    (Attendance.POST db u req now).2.attendances = db.attendances := by
  rcases attPost_cases db u req now with ⟨e, heq⟩ | ⟨s, hdup', heq⟩
  · rw [heq]
  · rw [hdup] at hdup'
    simp at hdup'

/-- C1: at most one attendance record per (user, class, calendar day) —
both handlers preserve the invariant; when a record of the triple already
exists neither handler writes a new one; and when the duplicate lookup is
reached with a record present (all earlier checks passing) the request
fails with DuplicateCheckIn and the store is unchanged. -/
theorem c1_unique_per_day (db : DB) (u : String) (reqR : RecRequest) (reqA : AttRequest)
    (now : Now) :
    (AtMostOnePerTriple db.attendances →
      AtMostOnePerTriple (Recognition.POST db u reqR now).2.attendances ∧
      AtMostOnePerTriple (Attendance.POST db u reqA now).2.attendances) ∧
    (dupAttendanceExists db.attendances u reqR.classId now.day = true →
      (Recognition.POST db u reqR now).2.attendances = db.attendances) ∧
    (dupAttendanceExists db.attendances u reqA.classId now.day = true →
      (Attendance.POST db u reqA now).2.attendances = db.attendances) ∧
    (∀ p k, findFaceProfile db u = some p → findClassInfo db reqR.classId = some k →
      (activeEnrollments db u reqR.classId).length ≠ 0 →
      (wifiTruthy reqR.wifiSsid && (k.wifiSsid != reqR.wifiSsid.getD "")) = false →
      k.schedule.dayOfWeek = now.weekday →
      ¬(now.minutes < schedStartMinutes k.schedule - Recognition.checkInWindow ∨
        now.minutes > schedEndMinutes k.schedule) →
      ¬ Recognition.calculateFaceConfidence p.faceDescriptors reqR.faceDescriptors <
        p.confidenceThreshold →
      dupAttendanceExists db.attendances u reqR.classId now.day = true →
      Recognition.POST db u reqR now = (Except.error AdmissionError.DuplicateCheckIn, db)) ∧
    (∀ k, findClassSession db reqA.classId = some k →
      (anyEnrollments db u reqA.classId).length ≠ 0 →
      dupAttendanceExists db.attendances u reqA.classId now.day = true →
      Attendance.POST db u reqA now = (Except.error AdmissionError.DuplicateCheckIn, db)) :=
  ⟨fun h => ⟨post_preserves db u reqR now h, attPost_preserves db u reqA now h⟩,
    post_dup_no_write db u reqR now,
    attPost_dup_no_write db u reqA now,
    fun p k hp hk he hw hd hwin hf hdup =>
      post_duplicate db u reqR now p k hp hk he hw hd hwin hf hdup,
    fun k hk he hdup => attPost_duplicate db u reqA now k hk he hdup⟩

/-- C1 witness: on a ledger that already holds a record for
("u", "c", day 0), a second attendance-route attempt is rejected with
DuplicateCheckIn, writing nothing. -/
theorem c1_unique_per_day_witness :
    dupAttendanceExists dbDup.attendances "u" "c" 0 = true ∧
    Attendance.POST dbDup "u" reqAtt now0 =
      (Except.error AdmissionError.DuplicateCheckIn, dbDup) ∧
    (Attendance.POST dbDup "u" reqAtt now0).2.attendances = dbDup.attendances :=
  ⟨by decide,
    (c1_unique_per_day dbDup "u" reqRecEmpty reqAtt now0).2.2.2.2 sessionC rfl
      (by decide) (by decide),
    (c1_unique_per_day dbDup "u" reqRecEmpty reqAtt now0).2.2.1 (by decide)⟩

/-- C3 counterexample: a user with neither an active enrollment nor a
face profile receives FaceProfileMissing, not NotEnrolled, because the
recognition handler checks the face profile before the enrollment. -/
theorem c3_counterexample :
    activeEnrollments dbEmpty "u" "c" = [] ∧
    findFaceProfile dbEmpty "u" = none ∧
    Recognition.POST dbEmpty "u" reqRecEmpty now0 =
      (Except.error AdmissionError.FaceProfileMissing, dbEmpty) ∧
    (AdmissionError.FaceProfileMissing == AdmissionError.NotEnrolled) = false :=
  ⟨rfl, rfl, post_profileMissing dbEmpty "u" reqRecEmpty now0 rfl, rfl⟩

/-- C3 amended/corrected: the recognition handler performs its checks in
this order — face profile (FaceProfileMissing), class existence
(ClassNotFound), ACTIVE enrollment (NotEnrolled), WiFi
(LocationRejected), scheduled weekday (NotScheduledToday), check-in
window (OutsideCheckInWindow), face match (FaceMismatch, which also
writes a failed quality log), duplicate for today (DuplicateCheckIn),
then persistence — and the first failing check aborts the request with
that check's reason.  In particular, a user with neither an active
enrollment nor a face profile receives FaceProfileMissing, not
NotEnrolled. -/
theorem c3_check_order (db : DB) (u : String) (req : RecRequest) (now : Now) :
    (findFaceProfile db u = none →
      Recognition.POST db u req now =
        (Except.error AdmissionError.FaceProfileMissing, db)) ∧
    (∀ p, findFaceProfile db u = some p → findClassInfo db req.classId = none →
      Recognition.POST db u req now = (Except.error AdmissionError.ClassNotFound, db)) ∧
    (∀ p k, findFaceProfile db u = some p → findClassInfo db req.classId = some k →
      (activeEnrollments db u req.classId).length = 0 →
      Recognition.POST db u req now = (Except.error AdmissionError.NotEnrolled, db)) ∧
    (∀ p k, findFaceProfile db u = some p → findClassInfo db req.classId = some k →
      (activeEnrollments db u req.classId).length ≠ 0 →
      (wifiTruthy req.wifiSsid && (k.wifiSsid != req.wifiSsid.getD "")) = true →
      Recognition.POST db u req now =
        (Except.error (AdmissionError.LocationRejected
          "Invalid location. Please connect to the correct WiFi network."), db)) ∧
    (∀ p k, findFaceProfile db u = some p → findClassInfo db req.classId = some k →
      (activeEnrollments db u req.classId).length ≠ 0 →
      (wifiTruthy req.wifiSsid && (k.wifiSsid != req.wifiSsid.getD "")) = false →
      k.schedule.dayOfWeek ≠ now.weekday →
      Recognition.POST db u req now =
        (Except.error AdmissionError.NotScheduledToday, db)) ∧
    (∀ p k, findFaceProfile db u = some p → findClassInfo db req.classId = some k →
      (activeEnrollments db u req.classId).length ≠ 0 →
      (wifiTruthy req.wifiSsid && (k.wifiSsid != req.wifiSsid.getD "")) = false →
      k.schedule.dayOfWeek = now.weekday →
      (now.minutes < schedStartMinutes k.schedule - Recognition.checkInWindow ∨
        now.minutes > schedEndMinutes k.schedule) →
      Recognition.POST db u req now =
        (Except.error AdmissionError.OutsideCheckInWindow, db)) ∧
    (∀ p k, findFaceProfile db u = some p → findClassInfo db req.classId = some k →
      (activeEnrollments db u req.classId).length ≠ 0 →
      (wifiTruthy req.wifiSsid && (k.wifiSsid != req.wifiSsid.getD "")) = false →
      k.schedule.dayOfWeek = now.weekday →
      ¬(now.minutes < schedStartMinutes k.schedule - Recognition.checkInWindow ∨
        now.minutes > schedEndMinutes k.schedule) →
      Recognition.calculateFaceConfidence p.faceDescriptors req.faceDescriptors <
        p.confidenceThreshold →
      Recognition.POST db u req now =
        (Except.error AdmissionError.FaceMismatch,
          { db with faceQualityLogs :=
              ⟨u, Recognition.calculateFaceConfidence p.faceDescriptors
                req.faceDescriptors, false⟩ :: db.faceQualityLogs })) ∧
    (∀ p k, findFaceProfile db u = some p → findClassInfo db req.classId = some k →
      (activeEnrollments db u req.classId).length ≠ 0 →
      (wifiTruthy req.wifiSsid && (k.wifiSsid != req.wifiSsid.getD "")) = false →
      k.schedule.dayOfWeek = now.weekday →
      ¬(now.minutes < schedStartMinutes k.schedule - Recognition.checkInWindow ∨
        now.minutes > schedEndMinutes k.schedule) →
      ¬ Recognition.calculateFaceConfidence p.faceDescriptors req.faceDescriptors <
        p.confidenceThreshold →
      dupAttendanceExists db.attendances u req.classId now.day = true →
      Recognition.POST db u req now =
        (Except.error AdmissionError.DuplicateCheckIn, db)) ∧
    (∀ p k, findFaceProfile db u = some p → findClassInfo db req.classId = some k →
      (activeEnrollments db u req.classId).length ≠ 0 →
      (wifiTruthy req.wifiSsid && (k.wifiSsid != req.wifiSsid.getD "")) = false →
      k.schedule.dayOfWeek = now.weekday →
      ¬(now.minutes < schedStartMinutes k.schedule - Recognition.checkInWindow ∨
        now.minutes > schedEndMinutes k.schedule) →
      ¬ Recognition.calculateFaceConfidence p.faceDescriptors req.faceDescriptors <
        p.confidenceThreshold →
      dupAttendanceExists db.attendances u req.classId now.day = false →
      Recognition.POST db u req now =
        (Except.ok (Recognition.checkInStatus k.schedule now),
          { addAttendance db
              ⟨u, req.classId, now.day, Recognition.checkInStatus k.schedule now,
                some (Recognition.calculateFaceConfidence p.faceDescriptors
                  req.faceDescriptors),
                req.wifiSsid, req.gpsLat, req.gpsLng⟩ with
            faceQualityLogs :=
              ⟨u, Recognition.calculateFaceConfidence p.faceDescriptors
                req.faceDescriptors, true⟩ :: db.faceQualityLogs })) :=
  ⟨fun hp => post_profileMissing db u req now hp,
    fun p hp hk => post_classMissing db u req now p hp hk,
    fun p k hp hk he => post_notEnrolled db u req now p k hp hk he,
    fun p k hp hk he hw => post_wifiRejected db u req now p k hp hk he hw,
    fun p k hp hk he hw hd => post_wrongDay db u req now p k hp hk he hw hd,
    fun p k hp hk he hw hd hwin => post_outsideWindow db u req now p k hp hk he hw hd hwin,
    fun p k hp hk he hw hd hwin hf =>
      post_faceMismatch db u req now p k hp hk he hw hd hwin hf,
    fun p k hp hk he hw hd hwin hf hdup =>
      post_duplicate db u req now p k hp hk he hw hd hwin hf hdup,
    fun p k hp hk he hw hd hwin hf hdup =>
      post_ok db u req now p k hp hk he hw hd hwin hf hdup⟩

/-- C3 amended witness: the first conjunct evaluated on the empty store. -/
theorem c3_check_order_witness :
    Recognition.POST dbEmpty "u" reqRecEmpty now0 =
      (Except.error AdmissionError.FaceProfileMissing, dbEmpty) :=
  (c3_check_order dbEmpty "u" reqRecEmpty now0).1 rfl

/-- C4: for a class scheduled 09:00 to 11:00 on the current weekday, with
all non-schedule checks passing, the recognition handler accepts a
check-in at 09:10 as PRESENT, at 09:20 as LATE, rejects 11:05 with
OutsideCheckInWindow, and accepts 08:50 (within the 15-minute early
allowance) as PRESENT.  The handler's late threshold is the hard-coded
10-minute constant, which classifies these four instants exactly as the
claim's 15-minute threshold does. -/
theorem c4_schedule_scenarios (db : DB) (u : String) (req : RecRequest)
    (d wd inst : ℤ) (p : FaceProfile) (k : ClassInfo)
    (hp : findFaceProfile db u = some p)
    (hk : findClassInfo db req.classId = some k)
    (hs : k.schedule = ⟨wd, 9, 0, 11, 0⟩)
    (he : (activeEnrollments db u req.classId).length ≠ 0)
    (hw : (wifiTruthy req.wifiSsid && (k.wifiSsid != req.wifiSsid.getD "")) = false)
    (hf : ¬ Recognition.calculateFaceConfidence p.faceDescriptors req.faceDescriptors <
      p.confidenceThreshold)
    (hdup : dupAttendanceExists db.attendances u req.classId d = false) :
    (Recognition.POST db u req ⟨d, wd, 550, inst⟩).1 = Except.ok Status.PRESENT ∧
    (Recognition.POST db u req ⟨d, wd, 560, inst⟩).1 = Except.ok Status.LATE ∧
    (Recognition.POST db u req ⟨d, wd, 665, inst⟩).1 =
      Except.error AdmissionError.OutsideCheckInWindow ∧
    (Recognition.POST db u req ⟨d, wd, 530, inst⟩).1 = Except.ok Status.PRESENT := by
  refine ⟨?_, ?_, ?_, ?_⟩
  · rw [post_ok db u req ⟨d, wd, 550, inst⟩ p k hp hk he hw (by rw [hs])
      (by rw [hs]; norm_num [schedStartMinutes, schedEndMinutes, Recognition.checkInWindow])
      hf hdup]
    norm_num [Recognition.checkInStatus, hs, schedStartMinutes, Recognition.lateThreshold]
  · rw [post_ok db u req ⟨d, wd, 560, inst⟩ p k hp hk he hw (by rw [hs])
      (by rw [hs]; norm_num [schedStartMinutes, schedEndMinutes, Recognition.checkInWindow])
      hf hdup]
    norm_num [Recognition.checkInStatus, hs, schedStartMinutes, Recognition.lateThreshold]
  · rw [post_outsideWindow db u req ⟨d, wd, 665, inst⟩ p k hp hk he hw (by rw [hs])
      (by rw [hs]
          norm_num [schedStartMinutes, schedEndMinutes, Recognition.checkInWindow])]
  · rw [post_ok db u req ⟨d, wd, 530, inst⟩ p k hp hk he hw (by rw [hs])
      (by rw [hs]; norm_num [schedStartMinutes, schedEndMinutes, Recognition.checkInWindow])
      hf hdup]
    norm_num [Recognition.checkInStatus, hs, schedStartMinutes, Recognition.lateThreshold]

/-- C4 witness: the four scenarios evaluated on the concrete store with
class "c" scheduled 09:00 to 11:00 on weekday 1, user "u" enrolled with a
matching face profile. -/
theorem c4_schedule_scenarios_witness :
    (Recognition.POST dbRec "u" reqMatch ⟨0, 1, 550, 0⟩).1 = Except.ok Status.PRESENT ∧
    (Recognition.POST dbRec "u" reqMatch ⟨0, 1, 560, 0⟩).1 = Except.ok Status.LATE ∧
    (Recognition.POST dbRec "u" reqMatch ⟨0, 1, 665, 0⟩).1 =
      Except.error AdmissionError.OutsideCheckInWindow ∧
    (Recognition.POST dbRec "u" reqMatch ⟨0, 1, 530, 0⟩).1 = Except.ok Status.PRESENT :=
  c4_schedule_scenarios dbRec "u" reqMatch 0 1 0 profileU classC rfl rfl rfl
    (by decide) (by decide)
    (by rw [show Recognition.calculateFaceConfidence profileU.faceDescriptors
          reqMatch.faceDescriptors = 1 from calculateFaceConfidence_self [(0 : ℝ)] (by simp)]
        norm_num [profileU])
    (by decide)

/-- C5 counterexample: in the attendance route the enrollment query has
no status filter, so a user whose only enrollment row is INACTIVE passes
the enrollment check and — with class, ledger and location in order — the
check-in is accepted with PRESENT instead of being rejected with
NotEnrolled. -/
theorem c5_counterexample :
    dbAtt.enrollments = [⟨"u", "c", EnrollmentStatus.INACTIVE⟩] ∧
    activeEnrollments dbAtt "u" "c" = [] ∧
    (Attendance.POST dbAtt "u" reqAtt now0).1 = Except.ok Status.PRESENT := by
  refine ⟨rfl, rfl, ?_⟩
  have hlv : (Attendance.validateLocation dbAtt "c" none none).valid = true := by
    rw [validateLocation_eq dbAtt "c" sessionC roomPlain none none rfl rfl]
    rw [if_neg (by simp [wifiNotAllowed]), if_neg (by simp [Attendance.gpsTooFar])]
  rw [attPost_ok dbAtt "u" reqAtt now0 sessionC rfl (by decide) (by decide) hlv]
  norm_num [sessionC, now0]

/-- C5 amended: the recognition handler rejects with NotEnrolled whenever
profile and class resolve but the user has no ACTIVE enrollment; the
attendance route, however, returns NotEnrolled exactly when the class
exists and there is no enrollment row of any status — an INACTIVE
enrollment is accepted there. -/
theorem c5_active_enrollment (db : DB) (u : String) (reqR : RecRequest)
    (reqA : AttRequest) (now : Now) :
    (∀ p k, findFaceProfile db u = some p → findClassInfo db reqR.classId = some k →
      (activeEnrollments db u reqR.classId).length = 0 →
      Recognition.POST db u reqR now = (Except.error AdmissionError.NotEnrolled, db)) ∧
    ((Attendance.POST db u reqA now).1 = Except.error AdmissionError.NotEnrolled ↔
      (findClassSession db reqA.classId).isSome = true ∧
        (anyEnrollments db u reqA.classId).length = 0) := by
  constructor
  · exact fun p k hp hk he => post_notEnrolled db u reqR now p k hp hk he
  · cases hk : findClassSession db reqA.classId with
    | none =>
      rw [attPost_classMissing db u reqA now hk]
      simp
    | some k =>
      by_cases he : (anyEnrollments db u reqA.classId).length = 0
      · rw [attPost_notEnrolled db u reqA now k hk he]
        simp [he]
      · constructor
        · intro h1
          exfalso
          cases hdup : dupAttendanceExists db.attendances u reqA.classId now.day with
          | true =>
            rw [attPost_duplicate db u reqA now k hk he hdup] at h1
            simp at h1
          | false =>
            cases hlv : (Attendance.validateLocation db reqA.classId reqA.coordinates
                reqA.wifiSSID).valid with
            | false =>
              rw [attPost_locationRejected db u reqA now k hk he hdup hlv] at h1
              simp at h1
            | true =>
              rw [attPost_ok db u reqA now k hk he hdup hlv] at h1
              simp at h1
        · intro h2
          exact absurd h2.2 he

/-- C5 amended witness: the iff evaluated on the INACTIVE-enrollment
store, where the class exists, the enrollment rows are non-empty, and the
response is not NotEnrolled. -/
theorem c5_active_enrollment_witness :
    ((Attendance.POST dbAtt "u" reqAtt now0).1 = Except.error AdmissionError.NotEnrolled ↔
      (findClassSession dbAtt "c").isSome = true ∧
        (anyEnrollments dbAtt "u" "c").length = 0) :=
  (c5_active_enrollment dbAtt "u" reqRecEmpty reqAtt now0).2

/-- Scorer evaluation: stored `[0]` against submitted `[3]` has Euclidean
distance 3, hence confidence `max 0 (1 - 3) = 0`. -/
lemma calculateFaceConfidence_zero_three :
    Recognition.calculateFaceConfidence [(0 : ℝ)] [3] = 0 := by
  unfold Recognition.calculateFaceConfidence
  rw [if_neg (by simp)]
  have hs : sumSquares [(0 : ℝ)] [3] = 9 := by
    norm_num [sumSquares, Finset.sum_range_one]
  rw [hs, show (9 : ℝ) = 3 ^ 2 from by norm_num,
    Real.sqrt_sq (by norm_num : (0 : ℝ) ≤ 3)]
  show (jsRound (max 0 (1 - 3 / Recognition.maxDistance) * 1000) : ℝ) / 1000 = 0
  rw [show max (0 : ℝ) (1 - 3 / Recognition.maxDistance) = 0 from by
    rw [show (1 : ℝ) - 3 / Recognition.maxDistance = -2 from by
      norm_num [Recognition.maxDistance]]
    exact max_eq_left (by norm_num)]
  rw [zero_mul, show jsRound 0 = 0 from by simpa using jsRound_intCast 0]
  norm_num

/-- C8 counterexample: a face-match failure is a pre-persistence failure
that does write state — starting from an empty quality-log table, the
handler returns FaceMismatch and leaves a failed `faceQualityLog` row
behind. -/
theorem c8_counterexample :
    dbRec.faceQualityLogs = [] ∧
    Recognition.POST dbRec "u" reqMismatch nowClass =
      (Except.error AdmissionError.FaceMismatch,
        { dbRec with faceQualityLogs := [⟨"u", 0, false⟩] }) := by
  refine ⟨rfl, ?_⟩
  have hcc : Recognition.calculateFaceConfidence profileU.faceDescriptors
      reqMismatch.faceDescriptors = 0 := calculateFaceConfidence_zero_three
  rw [post_faceMismatch dbRec "u" reqMismatch nowClass profileU classC rfl rfl
    (by decide) (by decide) (by decide) (by decide)
    (by rw [hcc]; norm_num [profileU])]
  rw [hcc]
  rfl

/-- C8 amended: every failure other than FaceMismatch leaves the store
unchanged; a FaceMismatch failure writes exactly one failed quality log
(and no attendance record) before the persistence step; a success writes
exactly one attendance record together with one success quality log. -/
theorem c8_no_partial_state (db : DB) (u : String) (req : RecRequest) (now : Now) :
    (∀ e, (Recognition.POST db u req now).1 = Except.error e →
      e ≠ AdmissionError.FaceMismatch → (Recognition.POST db u req now).2 = db) ∧
    ((Recognition.POST db u req now).1 = Except.error AdmissionError.FaceMismatch →
      (Recognition.POST db u req now).2.attendances = db.attendances ∧
      ∃ l, l.success = false ∧
        (Recognition.POST db u req now).2.faceQualityLogs = l :: db.faceQualityLogs) ∧
    (∀ s, (Recognition.POST db u req now).1 = Except.ok s →
      ∃ a l, (Recognition.POST db u req now).2.attendances = a :: db.attendances ∧
        (Recognition.POST db u req now).2.faceQualityLogs = l :: db.faceQualityLogs) := by
  rcases post_cases db u req now with ⟨e0, he0, heq⟩ | ⟨c, heq⟩ | ⟨s0, c, hdup, heq⟩
  · rw [heq]
    refine ⟨fun e h1 h2 => rfl, fun h1 => ?_, fun s h1 => ?_⟩
    · simp only [Prod.fst, Except.error.injEq] at h1
      exact absurd h1 he0
    · simp at h1
  · rw [heq]
    refine ⟨fun e h1 h2 => ?_, fun h1 => ?_, fun s h1 => ?_⟩
    · simp only [Prod.fst, Except.error.injEq] at h1
      exact absurd h1.symm h2
    · exact ⟨rfl, ⟨⟨u, c, false⟩, rfl, rfl⟩⟩
    · simp at h1
  · rw [heq]
    refine ⟨fun e h1 h2 => ?_, fun h1 => ?_, fun s h1 => ?_⟩
    · simp at h1
    · simp at h1
    · exact ⟨_, _, rfl, rfl⟩

/-- C8 amended witness: a FaceProfileMissing failure leaves the store
unchanged. -/
theorem c8_no_partial_state_witness :
    (Recognition.POST dbEmpty "u" reqRecEmpty now0).2 = dbEmpty :=
  (c8_no_partial_state dbEmpty "u" reqRecEmpty now0).1 AdmissionError.FaceProfileMissing
    (by rw [post_profileMissing dbEmpty "u" reqRecEmpty now0 rfl]) (by decide)

/-- C9: the duplicate guard is check-then-act with no storage-layer
uniqueness constraint.  When two requests for the same (user, class, day)
both run the step-4 duplicate read against the same snapshot before
either step-7 write — the interleaving `raceCheckThenAct` — both reads
report no duplicate, both inserts are applied, and the ledger ends with
two records of the triple; neither caller receives DuplicateCheckIn.
Only a sequential second attempt (last conjunct) sees the duplicate. -/
theorem c9_race_check_then_act :
    (raceCheckThenAct dbEmpty attRec0 attRec0).1 = false ∧
    (raceCheckThenAct dbEmpty attRec0 attRec0).2.1 = false ∧
    ((raceCheckThenAct dbEmpty attRec0 attRec0).2.2.attendances.filter
      (fun a => a.userId == "u" && a.classId == "c" && a.day == 0)).length = 2 ∧
    dupAttendanceExists (addAttendance dbEmpty attRec0).attendances "u" "c" 0 = true := by
  decide

end Absensi
